import Mathlib

/-!
Shallow embedding of `src/CPUOptionsDllDirector.cpp` from the
sc4-cpu-options plugin. The DLL runs once at startup: it restricts the
game process to one CPU core (unless a `-CPUCount` switch is present) and
sets the process priority class from the `-CPUPriority` switch or the
`SC4CPUOptions.ini` configuration file. Each routine is modelled as a
function from an explicit OS-outcome environment to the trace of log
lines written and Win32 calls issued, in order.
-/

namespace SC4

/-- Log severity levels written by the source file (the `Logger` class
itself lives outside this translation unit; only the two levels the
source file uses are modelled). -/
inductive LogLevel where
  | Info
  | Error
deriving DecidableEq

/-- One line written to the plugin log: a severity and the formatted text. -/
structure LogLine where
  level : LogLevel
  text : String
deriving DecidableEq

/-- The Win32 process-tuning calls issued by the source file. -/
inductive OSCall where
  | getProcessAffinityMask
  | setProcessAffinityMask (mask : Nat)
  | setPriorityClass (priority : Nat)
deriving DecidableEq

/-- Trace of one modelled routine: the log lines written and the OS calls
made, in order. -/
structure Trace where
  logs : List LogLine
  calls : List OSCall
deriving DecidableEq

/-- Outcome model of the Win32 calls used by the plugin: whether each call
succeeds, and the system affinity mask that `GetProcessAffinityMask`
reports. -/
structure OSEnv where
  getAffinityOk : Bool
  systemAffinityMask : Nat
  setAffinityOk : Bool
  setPriorityOk : Bool
deriving DecidableEq

/-- Win32 `HIGH_PRIORITY_CLASS` (Windows SDK value 0x80). -/
def HIGH_PRIORITY_CLASS : Nat := 0x80

/-- Win32 `ABOVE_NORMAL_PRIORITY_CLASS` (Windows SDK value 0x8000). -/
def ABOVE_NORMAL_PRIORITY_CLASS : Nat := 0x8000

/-- Win32 `NORMAL_PRIORITY_CLASS` (Windows SDK value 0x20). -/
def NORMAL_PRIORITY_CLASS : Nat := 0x20

/-- Win32 `BELOW_NORMAL_PRIORITY_CLASS` (Windows SDK value 0x4000). -/
def BELOW_NORMAL_PRIORITY_CLASS : Nat := 0x4000

/-- Win32 `IDLE_PRIORITY_CLASS` (Windows SDK value 0x40). -/
def IDLE_PRIORITY_CLASS : Nat := 0x40

/-- Bit width of `DWORD_PTR` on the 32-bit target the plugin builds for
(SimCity 4 is a 32-bit process). -/
def wordBits : Nat := 32

/-- `GetLowestSetBitMask` (source lines 55-62): `value & -value` computed
in `wordBits`-bit two complement arithmetic, embedded over `Nat` with the
negation written as subtraction from `2 ^ wordBits` modulo `2 ^ wordBits`. -/
def GetLowestSetBitMask (value : Nat) : Nat :=
  value &&& ((2 ^ wordBits - value % 2 ^ wordBits) % 2 ^ wordBits)

/-- `EqualsIgnoreCase` (source lines 40-44): length equality combined with
`boost::iequals`, a character-wise case-insensitive comparison. -/
def EqualsIgnoreCase (lhs rhs : String) : Bool :=
  lhs.length == rhs.length
    && lhs.toList.map Char.toLower == rhs.toList.map Char.toLower

/-- The priority-name resolution chain of `ProcessCPUPriorityValue`
(source lines 102-147): the `cpuPriority` value selected for the string,
paired with the log lines the chain itself writes. A first component of 0
means no `SetPriorityClass` call will be made. -/
def selectCPUPriority (priority : String) (isCPUPriorityArgument : Bool) :
    Nat × List LogLine :=
  if EqualsIgnoreCase priority "High" then
    (HIGH_PRIORITY_CLASS, [])
  else if EqualsIgnoreCase priority "AboveNormal" then
    (ABOVE_NORMAL_PRIORITY_CLASS, [])
  else if EqualsIgnoreCase priority "Normal" then
    (NORMAL_PRIORITY_CLASS, [])
  else if EqualsIgnoreCase priority "BelowNormal" then
    (BELOW_NORMAL_PRIORITY_CLASS, [])
  else if EqualsIgnoreCase priority "Idle" then
    (IDLE_PRIORITY_CLASS, [])
  else if EqualsIgnoreCase priority "Low" then
    if isCPUPriorityArgument then
      (0, [⟨LogLevel.Info, "SC4 set its CPU priority to Low."⟩])
    else
      (IDLE_PRIORITY_CLASS, [])
  else
    (0, [⟨LogLevel.Error, "Unsupported CPU priority value: " ++ priority⟩])

/-- `ProcessCPUPriorityValue` (source lines 98-169): resolve the priority
name, then, when a non-zero class was selected, call `SetPriorityClass`
and log the outcome (an info line on success, an error line when the call
fails; the failure is caught inside the routine). -/
def ProcessCPUPriorityValue (env : OSEnv) (priority : String)
    (isCPUPriorityArgument : Bool) : Trace :=
  let sel := selectCPUPriority priority isCPUPriorityArgument
  if sel.1 ≠ 0 then
    { logs := sel.2 ++
        [if env.setPriorityOk then
          ⟨LogLevel.Info, "Set the game\x27s CPU priority to " ++ priority ++ "."⟩
        else
          ⟨LogLevel.Error, "An OS error occurred when setting the CPU priority."⟩],
      calls := [OSCall.setPriorityClass sel.1] }
  else
    { logs := sel.2, calls := [] }

/-- `ConfigureForSingleCPU` (source lines 64-96): query the affinity
masks, compute the lowest set bit of the system mask, and set the process
affinity to it; every Win32 failure is caught and logged as an error. -/
def ConfigureForSingleCPU (env : OSEnv) : Trace :=
  if env.getAffinityOk then
    let firstLogicalProcessor := GetLowestSetBitMask env.systemAffinityMask
    { logs := [if env.setAffinityOk then
          ⟨LogLevel.Info, "Configured the game to use 1 CPU core."⟩
        else
          ⟨LogLevel.Error,
            "An OS error occurred when configuring the game to use 1 CPU core."⟩],
      calls := [OSCall.getProcessAffinityMask,
        OSCall.setProcessAffinityMask firstLogicalProcessor] }
  else
    { logs := [⟨LogLevel.Error,
        "An OS error occurred when configuring the game to use 1 CPU core."⟩],
      calls := [OSCall.getProcessAffinityMask] }

/-- Observable state of the `SC4CPUOptions.ini` configuration file, as the
exception structure of `SetCPUPriorityFromConfigFile` distinguishes it:
the file stream fails to open, the INI parser throws, the
`CPUOptions.Priority` lookup throws, or a priority string is obtained.
The carried strings are the exception messages and the priority value. -/
inductive ConfigFileState where
  | unreadable
  | parseFailure (msg : String)
  | missingKey (msg : String)
  | hasPriority (value : String)
deriving DecidableEq

/-- `SetCPUPriorityFromConfigFile` (source lines 239-267): read the
priority string from the configuration file and feed it to
`ProcessCPUPriorityValue` with `isCPUPriorityArgument = false`; any
exception is caught and logged as an error. -/
def SetCPUPriorityFromConfigFile (env : OSEnv) (cfg : ConfigFileState) :
    Trace :=
  match cfg with
  | ConfigFileState.unreadable =>
    { logs := [⟨LogLevel.Error,
        "Error when setting the CPU priority: Failed to open the settings file."⟩],
      calls := [] }
  | ConfigFileState.parseFailure msg =>
    { logs := [⟨LogLevel.Error,
        "Error when setting the CPU priority: " ++ msg⟩],
      calls := [] }
  | ConfigFileState.missingKey msg =>
    { logs := [⟨LogLevel.Error,
        "Error when setting the CPU priority: " ++ msg⟩],
      calls := [] }
  | ConfigFileState.hasPriority v => ProcessCPUPriorityValue env v false

/-- The host command line as the source reads it: the value of the
`-CPUCount` switch when present, and the value of the `-CPUPriority`
switch when present. -/
structure CmdLine where
  cpuCount : Option String
  cpuPriority : Option String
deriving DecidableEq

/-- `CPUOptionsDllDirector::OnStart` (source lines 196-235): skip or apply
the single-CPU restriction depending on `-CPUCount`, then apply the
priority from `-CPUPriority` or from the configuration file, and return
`true` unconditionally. -/
def OnStart (env : OSEnv) (cmd : CmdLine) (cfg : ConfigFileState) :
    Bool × Trace :=
  let affinityTrace : Trace :=
    match cmd.cpuCount with
    | some v =>
      { logs := [⟨LogLevel.Info,
          "Skipped forcing the game to a single CPU because the command line contains -CPUCount:"
            ++ v ++ "."⟩],
        calls := [] }
    | none => ConfigureForSingleCPU env
  let priorityTrace : Trace :=
    match cmd.cpuPriority with
    | some v => ProcessCPUPriorityValue env v true
    | none => SetCPUPriorityFromConfigFile env cfg
  (true, { logs := affinityTrace.logs ++ priorityTrace.logs,
           calls := affinityTrace.calls ++ priorityTrace.calls })

/-- Recognizer for `SetPriorityClass` calls in a trace. -/
def isSetPriorityCall : OSCall → Bool
  | OSCall.setPriorityClass _ => true
  | _ => false

/-- Recognizer for affinity-related calls in a trace. -/
def isAffinityCall : OSCall → Bool
  | OSCall.getProcessAffinityMask => true
  | OSCall.setProcessAffinityMask _ => true
  | _ => false

/-- Two strings are case variants of each other when they agree character
by character up to letter case. -/
def CaseVariant (s t : String) : Prop :=
  s.toList.map Char.toLower = t.toList.map Char.toLower

instance (s t : String) : Decidable (CaseVariant s t) := by
  unfold CaseVariant
  infer_instance

/-- A number and its complement below `2 ^ n` share no set bit. -/
theorem land_compl_sub (n x : Nat) (h : x < 2 ^ n) :
    x &&& (2 ^ n - 1 - x) = 0 := by
  apply Nat.eq_of_testBit_eq
  intro i
  have h2 : 2 ^ n - 1 - x = 2 ^ n - (x + 1) := by omega
  rw [Nat.testBit_land, h2, Nat.testBit_two_pow_sub_succ h, Nat.zero_testBit]
  cases hx : x.testBit i <;> simp [hx]

/-- Bitwise and commutes with doubling. -/
theorem two_mul_land_two_mul (a b : Nat) :
    2 * a &&& 2 * b = 2 * (a &&& b) := by
  apply Nat.eq_of_testBit_eq
  intro i
  cases i with
  | zero =>
    simp [Nat.testBit_land, Nat.testBit_zero, Nat.mul_mod_right]
  | succ j =>
    rw [Nat.testBit_land, Nat.testBit_succ, Nat.testBit_succ, Nat.testBit_succ,
      Nat.mul_div_cancel_left a (by decide : 0 < 2),
      Nat.mul_div_cancel_left b (by decide : 0 < 2),
      Nat.mul_div_cancel_left (a &&& b) (by decide : 0 < 2),
      Nat.testBit_land]

/-- Bitwise and of two odd numbers in terms of their halves. -/
theorem two_mul_add_one_land (a b : Nat) :
    (2 * a + 1) &&& (2 * b + 1) = 2 * (a &&& b) + 1 := by
  apply Nat.eq_of_testBit_eq
  intro i
  cases i with
  | zero =>
    simp [Nat.testBit_land, Nat.testBit_zero, Nat.mul_add_mod]
  | succ j =>
    rw [Nat.testBit_land, Nat.testBit_succ, Nat.testBit_succ, Nat.testBit_succ,
      Nat.mul_add_div (by decide : 0 < 2) a 1,
      Nat.mul_add_div (by decide : 0 < 2) b 1,
      Nat.mul_add_div (by decide : 0 < 2) (a &&& b) 1]
    simp [Nat.testBit_land]

/-- For `0 < v < 2 ^ w`, `v &&& (2 ^ w - v)` (the two-complement trick of
`GetLowestSetBitMask`) is the power of two at the lowest set bit of `v`. -/
theorem land_two_pow_sub_eq_lowest :
    ∀ v, 0 < v → ∀ w, v < 2 ^ w →
      ∃ k, v &&& (2 ^ w - v) = 2 ^ k ∧ v.testBit k = true ∧
        ∀ j, j < k → v.testBit j = false := by
  intro v
  induction v using Nat.strong_induction_on with
  | _ v ih =>
    intro hv w hw
    have hw1 : 1 ≤ w := by
      rcases Nat.eq_zero_or_pos w with rfl | h
      · simp at hw; omega
      · exact h
    have hpow : 2 ^ w = 2 * 2 ^ (w - 1) := by
      rw [← pow_succ']
      congr 1
      omega
    rcases Nat.mod_two_eq_zero_or_one v with h2 | h2
    · have hv2 : v = 2 * (v / 2) := by omega
      set u := v / 2 with hu
      have hu_pos : 0 < u := by omega
      have hu_lt : u < 2 ^ (w - 1) := by omega
      have hsub : 2 ^ w - v = 2 * (2 ^ (w - 1) - u) := by omega
      obtain ⟨k, hk, hbit, hlow⟩ := ih u (by omega) hu_pos (w - 1) hu_lt
      refine ⟨k + 1, ?_, ?_, ?_⟩
      · rw [hsub, hv2, two_mul_land_two_mul, hk, pow_succ']
      · rw [hv2, Nat.testBit_add_one,
          Nat.mul_div_cancel_left u (by decide : 0 < 2)]
        exact hbit
      · intro j hj
        cases j with
        | zero =>
          rw [hv2]
          simp [Nat.testBit_zero, Nat.mul_mod_right]
        | succ j' =>
          rw [hv2, Nat.testBit_add_one,
            Nat.mul_div_cancel_left u (by decide : 0 < 2)]
          exact hlow j' (by omega)
    · refine ⟨0, ?_, ?_, ?_⟩
      · have hv2 : v = 2 * (v / 2) + 1 := by omega
        set u := v / 2 with hu
        have hu_lt : u < 2 ^ (w - 1) := by omega
        have hsub : 2 ^ w - v = 2 * (2 ^ (w - 1) - 1 - u) + 1 := by omega
        rw [hsub, hv2, two_mul_add_one_land, land_compl_sub (w - 1) u hu_lt]
        rfl
      · simp [Nat.testBit_zero, h2]
      · intro j hj
        exact absurd hj (Nat.not_lt_zero j)

/-- On inputs with at least one bit set, `GetLowestSetBitMask` returns the
power of two at the lowest set bit. -/
theorem getLowestSetBitMask_eq_lowest (v : Nat) (hv : 0 < v)
    (hw : v < 2 ^ wordBits) :
    ∃ k, GetLowestSetBitMask v = 2 ^ k ∧ v.testBit k = true ∧
      ∀ j, j < k → v.testBit j = false := by
  have h1 : v % 2 ^ wordBits = v := Nat.mod_eq_of_lt hw
  have h2 : (2 ^ wordBits - v) % 2 ^ wordBits = 2 ^ wordBits - v :=
    Nat.mod_eq_of_lt (by omega)
  unfold GetLowestSetBitMask
  rw [h1, h2]
  exact land_two_pow_sub_eq_lowest v hv wordBits hw

/-- `GetLowestSetBitMask` maps 0 to 0. -/
theorem getLowestSetBitMask_zero : GetLowestSetBitMask 0 = 0 := by decide

/-- A power of two at a set bit of `v` is a submask of `v`. -/
theorem pow_land_submask {v k : Nat} (h : v.testBit k = true) :
    2 ^ k &&& v = 2 ^ k := by
  apply Nat.eq_of_testBit_eq
  intro i
  rw [Nat.testBit_land]
  rcases eq_or_ne k i with rfl | hik
  · simp [Nat.testBit_two_pow, h]
  · simp [Nat.testBit_two_pow, hik]


theorem processCPUPriorityValue_calls_eq (env : OSEnv) (p : String) (b : Bool) :
    (ProcessCPUPriorityValue env p b).calls =
      if (selectCPUPriority p b).1 ≠ 0 then
        [OSCall.setPriorityClass (selectCPUPriority p b).1]
      else [] := by
  unfold ProcessCPUPriorityValue
  by_cases h : (selectCPUPriority p b).1 ≠ 0 <;> simp [h]

theorem processCPUPriorityValue_calls_shape (env : OSEnv) (p : String)
    (b : Bool) :
    (ProcessCPUPriorityValue env p b).calls = []
    ∨ ∃ c, (ProcessCPUPriorityValue env p b).calls =
        [OSCall.setPriorityClass c] := by
  rw [processCPUPriorityValue_calls_eq]
  split
  · exact Or.inr ⟨_, rfl⟩
  · exact Or.inl rfl

theorem setCPUPriorityFromConfigFile_calls_shape (env : OSEnv)
    (cfg : ConfigFileState) :
    (SetCPUPriorityFromConfigFile env cfg).calls = []
    ∨ ∃ c, (SetCPUPriorityFromConfigFile env cfg).calls =
        [OSCall.setPriorityClass c] := by
  cases cfg with
  | unreadable => exact Or.inl rfl
  | parseFailure m => exact Or.inl rfl
  | missingKey m => exact Or.inl rfl
  | hasPriority v => exact processCPUPriorityValue_calls_shape env v false

theorem configureForSingleCPU_no_priority_call (env : OSEnv) :
    (ConfigureForSingleCPU env).calls.countP isSetPriorityCall = 0 := by
  unfold ConfigureForSingleCPU
  split <;> rfl

theorem onStart_calls (env : OSEnv) (cmd : CmdLine) (cfg : ConfigFileState) :
    (OnStart env cmd cfg).2.calls =
      (match cmd.cpuCount with
        | some _ => []
        | none => (ConfigureForSingleCPU env).calls) ++
      (match cmd.cpuPriority with
        | some v => (ProcessCPUPriorityValue env v true).calls
        | none => (SetCPUPriorityFromConfigFile env cfg).calls) := by
  cases cmd with
  | mk cc cp => cases cc <;> cases cp <;> rfl

theorem string_length_eq_toList_length (s : String) :
    s.length = s.toList.length := rfl

theorem equalsIgnoreCase_congr {s t : String} (h : CaseVariant s t)
    (p : String) : EqualsIgnoreCase s p = EqualsIgnoreCase t p := by
  unfold CaseVariant at h
  have hlen : s.length = t.length := by
    have h2 := congrArg List.length h
    simp only [List.length_map] at h2
    rw [string_length_eq_toList_length, string_length_eq_toList_length, h2]
  unfold EqualsIgnoreCase
  rw [hlen, h]

/-- C1: for every system affinity mask with at least one bit set,
`ConfigureForSingleCPU` issues a `SetProcessAffinityMask` call whose
argument is a single-bit mask, namely the power of two at the lowest set
bit of the system mask. -/
theorem c1_affinity_is_lowest_set_bit (env : OSEnv)
    (hget : env.getAffinityOk = true)
    (hpos : 0 < env.systemAffinityMask)
    (hlt : env.systemAffinityMask < 2 ^ wordBits) :
    ∃ k,
      (ConfigureForSingleCPU env).calls =
        [OSCall.getProcessAffinityMask, OSCall.setProcessAffinityMask (2 ^ k)]
      ∧ env.systemAffinityMask.testBit k = true
      ∧ ∀ j, j < k → env.systemAffinityMask.testBit j = false := by
  obtain ⟨k, hk, hbit, hlow⟩ := getLowestSetBitMask_eq_lowest _ hpos hlt
  refine ⟨k, ?_, hbit, hlow⟩
  simp [ConfigureForSingleCPU, hget, hk]

/-- Witness for C1 at a system mask of 0b1010: the selected core mask is
0b0010. -/
theorem c1_affinity_is_lowest_set_bit_witness :
    ∃ k,
      (ConfigureForSingleCPU
          { getAffinityOk := true, systemAffinityMask := 10,
            setAffinityOk := true, setPriorityOk := true }).calls =
        [OSCall.getProcessAffinityMask, OSCall.setProcessAffinityMask (2 ^ k)]
      ∧ Nat.testBit 10 k = true
      ∧ ∀ j, j < k → Nat.testBit 10 j = false :=
  c1_affinity_is_lowest_set_bit _ rfl (by decide) (by decide)

/-- C2: `ProcessCPUPriorityValue` applied to "Low" makes no OS call and
writes a single informational line when the value comes from the command
line, and issues the `SetPriorityClass` call with `IDLE_PRIORITY_CLASS`
when it does not. -/
theorem c2_low_priority (env : OSEnv) :
    ProcessCPUPriorityValue env "Low" true =
      { logs := [⟨LogLevel.Info, "SC4 set its CPU priority to Low."⟩],
        calls := [] }
    ∧ (ProcessCPUPriorityValue env "Low" false).calls =
        [OSCall.setPriorityClass IDLE_PRIORITY_CLASS] :=
  ⟨rfl, rfl⟩

/-- C3: every `OnStart` run issues at most one `SetPriorityClass` call,
whatever the command line, configuration file and OS outcomes are. -/
theorem c3_at_most_one_priority_call (env : OSEnv) (cmd : CmdLine)
    (cfg : ConfigFileState) :
    ((OnStart env cmd cfg).2.calls.countP isSetPriorityCall) ≤ 1 := by
  rw [onStart_calls, List.countP_append]
  have h1 : (match cmd.cpuCount with
      | some _ => ([] : List OSCall)
      | none => (ConfigureForSingleCPU env).calls).countP isSetPriorityCall
      = 0 := by
    cases cmd.cpuCount with
    | some v => rfl
    | none => exact configureForSingleCPU_no_priority_call env
  have h2 : (match cmd.cpuPriority with
      | some v => (ProcessCPUPriorityValue env v true).calls
      | none => (SetCPUPriorityFromConfigFile env cfg).calls).countP
        isSetPriorityCall ≤ 1 := by
    have shape : (match cmd.cpuPriority with
        | some v => (ProcessCPUPriorityValue env v true).calls
        | none => (SetCPUPriorityFromConfigFile env cfg).calls) = []
        ∨ ∃ c, (match cmd.cpuPriority with
          | some v => (ProcessCPUPriorityValue env v true).calls
          | none => (SetCPUPriorityFromConfigFile env cfg).calls) =
            [OSCall.setPriorityClass c] := by
      cases cmd.cpuPriority with
      | some v => exact processCPUPriorityValue_calls_shape env v true
      | none => exact setCPUPriorityFromConfigFile_calls_shape env cfg
    rcases shape with hsh | ⟨c, hsh⟩
    · rw [hsh]; exact Nat.zero_le 1
    · rw [hsh]; exact Nat.le_refl 1
  omega

/-- C4: `OnStart` returns `true` for every command line, configuration
file state and OS outcome. -/
theorem c4_onstart_returns_true (env : OSEnv) (cmd : CmdLine)
    (cfg : ConfigFileState) : (OnStart env cmd cfg).1 = true := rfl

/-- C7: a priority string matching none of the six recognized names makes
no OS call and produces exactly one error line containing the literal
value, and startup still returns success. -/
theorem c7_unrecognized_priority (env : OSEnv) (s : String) (b : Bool)
    (h1 : EqualsIgnoreCase s "High" = false)
    (h2 : EqualsIgnoreCase s "AboveNormal" = false)
    (h3 : EqualsIgnoreCase s "Normal" = false)
    (h4 : EqualsIgnoreCase s "BelowNormal" = false)
    (h5 : EqualsIgnoreCase s "Idle" = false)
    (h6 : EqualsIgnoreCase s "Low" = false) :
    ProcessCPUPriorityValue env s b =
      { logs := [⟨LogLevel.Error, "Unsupported CPU priority value: " ++ s⟩],
        calls := [] }
    ∧ ∀ cmd cfg, (OnStart env cmd cfg).1 = true := by
  refine ⟨?_, fun cmd cfg => rfl⟩
  have hsel : selectCPUPriority s b =
      (0, [⟨LogLevel.Error, "Unsupported CPU priority value: " ++ s⟩]) := by
    unfold selectCPUPriority
    simp [h1, h2, h3, h4, h5, h6]
  simp [ProcessCPUPriorityValue, hsel]

/-- Witness for C7 at the string "bogus". -/
theorem c7_unrecognized_priority_witness :
    ProcessCPUPriorityValue
        { getAffinityOk := true, systemAffinityMask := 10,
          setAffinityOk := true, setPriorityOk := true } "bogus" false =
      { logs := [⟨LogLevel.Error, "Unsupported CPU priority value: bogus"⟩],
        calls := [] }
    ∧ ∀ cmd cfg,
        (OnStart
          { getAffinityOk := true, systemAffinityMask := 10,
            setAffinityOk := true, setPriorityOk := true } cmd cfg).1 = true :=
  c7_unrecognized_priority _ "bogus" false (by decide) (by decide) (by decide)
    (by decide) (by decide) (by decide)

/-- C9: when the configuration file cannot be opened, cannot be parsed, or
has no priority key, `SetCPUPriorityFromConfigFile` issues no OS call,
writes one error line, and startup still returns success. -/
theorem c9_config_failure_no_priority_call (env : OSEnv)
    (cfg : ConfigFileState)
    (h : cfg = ConfigFileState.unreadable
      ∨ (∃ m, cfg = ConfigFileState.parseFailure m)
      ∨ (∃ m, cfg = ConfigFileState.missingKey m)) :
    (SetCPUPriorityFromConfigFile env cfg).calls = []
    ∧ (∃ msg, (SetCPUPriorityFromConfigFile env cfg).logs =
        [⟨LogLevel.Error, "Error when setting the CPU priority: " ++ msg⟩])
    ∧ ∀ cmd, (OnStart env cmd cfg).1 = true := by
  refine ⟨?_, ?_, fun cmd => rfl⟩
  · rcases h with rfl | ⟨m, rfl⟩ | ⟨m, rfl⟩ <;> rfl
  · rcases h with rfl | ⟨m, rfl⟩ | ⟨m, rfl⟩
    · exact ⟨"Failed to open the settings file.", rfl⟩
    · exact ⟨m, rfl⟩
    · exact ⟨m, rfl⟩

/-- Witness for C9 on an unreadable configuration file. -/
theorem c9_config_failure_no_priority_call_witness :
    (SetCPUPriorityFromConfigFile
        { getAffinityOk := true, systemAffinityMask := 10,
          setAffinityOk := true, setPriorityOk := true }
        ConfigFileState.unreadable).calls = []
    ∧ (∃ msg, (SetCPUPriorityFromConfigFile
        { getAffinityOk := true, systemAffinityMask := 10,
          setAffinityOk := true, setPriorityOk := true }
        ConfigFileState.unreadable).logs =
        [⟨LogLevel.Error, "Error when setting the CPU priority: " ++ msg⟩])
    ∧ ∀ cmd, (OnStart
        { getAffinityOk := true, systemAffinityMask := 10,
          setAffinityOk := true, setPriorityOk := true } cmd
        ConfigFileState.unreadable).1 = true :=
  c9_config_failure_no_priority_call _ _ (Or.inl rfl)

/-- C10: `GetLowestSetBitMask` is the two-complement trick
`value &&& (-value)`; its result always has at most one bit set and is a
submask of the input, it maps 0 to 0, and on a reported system mask of 0
`ConfigureForSingleCPU` still calls `SetProcessAffinityMask` with mask 0. -/
theorem c10_lowest_set_bit_mask_props (v : Nat) (hv : v < 2 ^ wordBits) :
    GetLowestSetBitMask v = v &&& ((2 ^ wordBits - v) % 2 ^ wordBits)
    ∧ (GetLowestSetBitMask v = 0 ∨ ∃ k, GetLowestSetBitMask v = 2 ^ k)
    ∧ GetLowestSetBitMask v &&& v = GetLowestSetBitMask v
    ∧ GetLowestSetBitMask 0 = 0
    ∧ ∀ env : OSEnv, env.getAffinityOk = true → env.systemAffinityMask = 0 →
        (ConfigureForSingleCPU env).calls =
          [OSCall.getProcessAffinityMask, OSCall.setProcessAffinityMask 0] := by
  refine ⟨?_, ?_, ?_, getLowestSetBitMask_zero, ?_⟩
  · unfold GetLowestSetBitMask
    rw [Nat.mod_eq_of_lt hv]
  · rcases Nat.eq_zero_or_pos v with rfl | hpos
    · exact Or.inl getLowestSetBitMask_zero
    · obtain ⟨k, hk, _, _⟩ := getLowestSetBitMask_eq_lowest v hpos hv
      exact Or.inr ⟨k, hk⟩
  · rcases Nat.eq_zero_or_pos v with rfl | hpos
    · simp [getLowestSetBitMask_zero]
    · obtain ⟨k, hk, hbit, _⟩ := getLowestSetBitMask_eq_lowest v hpos hv
      rw [hk]
      exact pow_land_submask hbit
  · intro env hget hmask
    simp [ConfigureForSingleCPU, hget, hmask, getLowestSetBitMask_zero]

/-- Witness for C10 at input 12 (0b1100): the result is 4 (0b0100). -/
theorem c10_lowest_set_bit_mask_props_witness :
    GetLowestSetBitMask 12 = 12 &&& ((2 ^ wordBits - 12) % 2 ^ wordBits)
    ∧ (GetLowestSetBitMask 12 = 0 ∨ ∃ k, GetLowestSetBitMask 12 = 2 ^ k)
    ∧ GetLowestSetBitMask 12 &&& 12 = GetLowestSetBitMask 12
    ∧ GetLowestSetBitMask 0 = 0
    ∧ ∀ env : OSEnv, env.getAffinityOk = true → env.systemAffinityMask = 0 →
        (ConfigureForSingleCPU env).calls =
          [OSCall.getProcessAffinityMask, OSCall.setProcessAffinityMask 0] :=
  c10_lowest_set_bit_mask_props 12 (by decide)


/-- C5: with neither command-line switch present and a configuration file
carrying Priority=AboveNormal, a fully successful startup restricts the
process to the lowest available core, sets the above-normal priority
class, and writes exactly two informational log lines. -/
theorem c5_end_to_end_above_normal (env : OSEnv)
    (hget : env.getAffinityOk = true) (hset : env.setAffinityOk = true)
    (hpri : env.setPriorityOk = true)
    (hpos : 0 < env.systemAffinityMask)
    (hlt : env.systemAffinityMask < 2 ^ wordBits) :
    ∃ k,
      (OnStart env ⟨none, none⟩
          (ConfigFileState.hasPriority "AboveNormal")).2.calls =
        [OSCall.getProcessAffinityMask, OSCall.setProcessAffinityMask (2 ^ k),
          OSCall.setPriorityClass ABOVE_NORMAL_PRIORITY_CLASS]
      ∧ env.systemAffinityMask.testBit k = true
      ∧ (∀ j, j < k → env.systemAffinityMask.testBit j = false)
      ∧ (OnStart env ⟨none, none⟩
          (ConfigFileState.hasPriority "AboveNormal")).2.logs =
        [⟨LogLevel.Info, "Configured the game to use 1 CPU core."⟩,
          ⟨LogLevel.Info, "Set the game\x27s CPU priority to AboveNormal."⟩] := by
  obtain ⟨k, hk, hbit, hlow⟩ := getLowestSetBitMask_eq_lowest _ hpos hlt
  have hsel : selectCPUPriority "AboveNormal" false =
      (ABOVE_NORMAL_PRIORITY_CLASS, []) := by decide
  have hne : ABOVE_NORMAL_PRIORITY_CLASS ≠ 0 := by decide
  refine ⟨k, ?_, hbit, hlow, ?_⟩
  · simp [OnStart, ConfigureForSingleCPU, SetCPUPriorityFromConfigFile,
      ProcessCPUPriorityValue, hsel, hne, hget, hset, hpri, hk]
  · simp [OnStart, ConfigureForSingleCPU, SetCPUPriorityFromConfigFile,
      ProcessCPUPriorityValue, hsel, hne, hget, hset, hpri]

/-- Witness for C5 at a system mask of 0b1010 with all OS calls
succeeding. -/
theorem c5_end_to_end_above_normal_witness :
    ∃ k,
      (OnStart
          { getAffinityOk := true, systemAffinityMask := 10,
            setAffinityOk := true, setPriorityOk := true } ⟨none, none⟩
          (ConfigFileState.hasPriority "AboveNormal")).2.calls =
        [OSCall.getProcessAffinityMask, OSCall.setProcessAffinityMask (2 ^ k),
          OSCall.setPriorityClass ABOVE_NORMAL_PRIORITY_CLASS]
      ∧ Nat.testBit 10 k = true
      ∧ (∀ j, j < k → Nat.testBit 10 j = false)
      ∧ (OnStart
          { getAffinityOk := true, systemAffinityMask := 10,
            setAffinityOk := true, setPriorityOk := true } ⟨none, none⟩
          (ConfigFileState.hasPriority "AboveNormal")).2.logs =
        [⟨LogLevel.Info, "Configured the game to use 1 CPU core."⟩,
          ⟨LogLevel.Info, "Set the game\x27s CPU priority to AboveNormal."⟩] :=
  c5_end_to_end_above_normal _ rfl rfl rfl (by decide) (by decide)

/-- C6: priority-name resolution is case-insensitive: case variants of a
string select the same priority class and produce the same OS calls, and
"high", "HIGH", "High" all select `HIGH_PRIORITY_CLASS`. -/
theorem c6_case_insensitive (s t : String) (h : CaseVariant s t) (b : Bool) :
    (selectCPUPriority s b).1 = (selectCPUPriority t b).1
    ∧ (∀ env : OSEnv, (ProcessCPUPriorityValue env s b).calls =
        (ProcessCPUPriorityValue env t b).calls)
    ∧ (selectCPUPriority "high" b).1 = HIGH_PRIORITY_CLASS
    ∧ (selectCPUPriority "HIGH" b).1 = HIGH_PRIORITY_CLASS
    ∧ (selectCPUPriority "High" b).1 = HIGH_PRIORITY_CLASS := by
  have hfst : (selectCPUPriority s b).1 = (selectCPUPriority t b).1 := by
    unfold selectCPUPriority
    rw [equalsIgnoreCase_congr h "High", equalsIgnoreCase_congr h "AboveNormal",
      equalsIgnoreCase_congr h "Normal", equalsIgnoreCase_congr h "BelowNormal",
      equalsIgnoreCase_congr h "Idle", equalsIgnoreCase_congr h "Low"]
    repeat' split
    all_goals rfl
  refine ⟨hfst, ?_, rfl, rfl, rfl⟩
  intro env
  rw [processCPUPriorityValue_calls_eq, processCPUPriorityValue_calls_eq, hfst]

/-- Witness for C6 on the case variants "hIgH" and "HiGh". -/
theorem c6_case_insensitive_witness :
    (selectCPUPriority "hIgH" true).1 = (selectCPUPriority "HiGh" true).1
    ∧ (∀ env : OSEnv, (ProcessCPUPriorityValue env "hIgH" true).calls =
        (ProcessCPUPriorityValue env "HiGh" true).calls)
    ∧ (selectCPUPriority "high" true).1 = HIGH_PRIORITY_CLASS
    ∧ (selectCPUPriority "HIGH" true).1 = HIGH_PRIORITY_CLASS
    ∧ (selectCPUPriority "High" true).1 = HIGH_PRIORITY_CLASS :=
  c6_case_insensitive "hIgH" "HiGh" (by decide) true

/-- C8: whenever the CPUCount switch is present, no affinity-related OS
call is made, for every switch value; the value only appears in the
informational skip log line. -/
theorem c8_cpucount_skips_affinity (env : OSEnv) (v : String)
    (cp : Option String) (cfg : ConfigFileState) :
    ((OnStart env ⟨some v, cp⟩ cfg).2.calls.all
        fun c => !(isAffinityCall c)) = true
    ∧ (⟨LogLevel.Info,
        "Skipped forcing the game to a single CPU because the command line contains -CPUCount:"
          ++ v ++ "."⟩ : LogLine) ∈ (OnStart env ⟨some v, cp⟩ cfg).2.logs := by
  constructor
  · cases cp with
    | some p =>
      have hcalls : (OnStart env ⟨some v, some p⟩ cfg).2.calls =
          (ProcessCPUPriorityValue env p true).calls := rfl
      rw [hcalls]
      rcases processCPUPriorityValue_calls_shape env p true with hsh | ⟨c, hsh⟩ <;>
        rw [hsh] <;> rfl
    | none =>
      have hcalls : (OnStart env ⟨some v, none⟩ cfg).2.calls =
          (SetCPUPriorityFromConfigFile env cfg).calls := rfl
      rw [hcalls]
      rcases setCPUPriorityFromConfigFile_calls_shape env cfg with hsh | ⟨c, hsh⟩ <;>
        rw [hsh] <;> rfl
  · have hlogs : (OnStart env ⟨some v, cp⟩ cfg).2.logs =
        (⟨LogLevel.Info,
          "Skipped forcing the game to a single CPU because the command line contains -CPUCount:"
            ++ v ++ "."⟩ : LogLine) ::
        (match cp with
          | some p => (ProcessCPUPriorityValue env p true).logs
          | none => (SetCPUPriorityFromConfigFile env cfg).logs) := by
      cases cp <;> rfl
    rw [hlogs]
    exact List.mem_cons_self _ _

end SC4


